import Mathlib

/-!
Verification of the render orchestration and progress-tracking subsystem of
rust-fractal-gui (src/main.rs) against its natural-language specification.

The Rust code is shallowly embedded: the UI event handlers become pure Lean
functions from an explicit state to a new state plus the list of commands they
submit, the progress sampler tick becomes a pure function of the counter
values, and the wrapping usize arithmetic of the cancellation counter is made
explicit with % 2^64.  f64 arithmetic in the sampler is modelled by exact
rational values extended with NaN and the two infinities, with IEEE-754
special-value propagation for the operations the sampler uses (the model is
exact where IEEE rounds, which does not affect the division-by-zero and
sign questions at issue here).
-/

namespace RustFractalGui

/-! ## Machine-integer casts

The target is 64-bit: usize is u64.  `iusize` is the wrapping `as usize`
cast applied to an i64 value (two's complement reinterpretation).  -/

def usizeMod : ℕ := 2 ^ 64

def usizeMax : ℕ := 2 ^ 64 - 1

def iusize (x : ℤ) : ℕ := (x % (usizeMod : ℤ)).toNat

theorem iusize_of_nonneg {x : ℤ} (h0 : 0 ≤ x) (h : x < (usizeMod : ℤ)) :
    iusize x = x.toNat := by
  unfold iusize
  rw [Int.emod_eq_of_lt h0 h]

/-! ## Float model

Values an f64 can take in the sampler: a finite value (modelled exactly as a
rational), NaN, or an infinity.  Operations follow IEEE-754 special-value
rules; finite arithmetic is exact.  -/

inductive FloatV where
  | num (q : ℚ)
  | nan
  | inf
  | negInf
deriving DecidableEq, Repr

def fadd : FloatV → FloatV → FloatV
  | .num a, .num b => .num (a + b)
  | .num _, .inf => .inf
  | .inf, .num _ => .inf
  | .num _, .negInf => .negInf
  | .negInf, .num _ => .negInf
  | .inf, .inf => .inf
  | .negInf, .negInf => .negInf
  | .inf, .negInf => .nan
  | .negInf, .inf => .nan
  | _, _ => .nan

def fsub : FloatV → FloatV → FloatV
  | .num a, .num b => .num (a - b)
  | .num _, .inf => .negInf
  | .inf, .num _ => .inf
  | .num _, .negInf => .inf
  | .negInf, .num _ => .negInf
  | .inf, .negInf => .inf
  | .negInf, .inf => .negInf
  | .inf, .inf => .nan
  | .negInf, .negInf => .nan
  | _, _ => .nan

def fmul : FloatV → FloatV → FloatV
  | .num a, .num b => .num (a * b)
  | .num a, .inf => if 0 < a then .inf else if a < 0 then .negInf else .nan
  | .num a, .negInf => if 0 < a then .negInf else if a < 0 then .inf else .nan
  | .inf, .num b => if 0 < b then .inf else if b < 0 then .negInf else .nan
  | .negInf, .num b => if 0 < b then .negInf else if b < 0 then .inf else .nan
  | .inf, .inf => .inf
  | .inf, .negInf => .negInf
  | .negInf, .inf => .negInf
  | .negInf, .negInf => .inf
  | _, _ => .nan

def fdiv : FloatV → FloatV → FloatV
  | .num a, .num b =>
      if b = 0 then
        if a = 0 then .nan else if 0 < a then .inf else .negInf
      else .num (a / b)
  | .num _, .inf => .num 0
  | .num _, .negInf => .num 0
  | .inf, .num b => if 0 ≤ b then .inf else .negInf
  | .negInf, .num b => if 0 ≤ b then .negInf else .inf
  | _, _ => .nan

theorem fadd_zero_left (x : FloatV) : fadd (.num 0) x = x := by
  cases x <;> simp [fadd]

/-- Truth of "this float value is a finite number lying in [0, 1]".
NaN and the infinities are not in the interval. -/
def inUnitInterval : FloatV → Prop
  | .num q => 0 ≤ q ∧ q ≤ 1
  | _ => False

instance decInUnitInterval : ∀ v : FloatV, Decidable (inUnitInterval v)
  | .num q => inferInstanceAs (Decidable (0 ≤ q ∧ q ≤ 1))
  | .nan => inferInstanceAs (Decidable False)
  | .inf => inferInstanceAs (Decidable False)
  | .negInf => inferInstanceAs (Decidable False)

/-! ## Progress counters and the sampler tick

src/main.rs lines 809-853 (and the identical copy at 886-931): the sampler
thread reads the seven atomic counters and derives a (stage, progress) pair.
Counter values are natural numbers (atomic usize counters).  -/

structure ProgressCounters where
  reference : ℕ
  referenceMaximum : ℕ
  seriesApproximation : ℕ
  seriesValidation : ℕ
  iteration : ℕ
  glitchedMaximum : ℕ
  minSeriesApproximation : ℕ
deriving DecidableEq, Repr

/-- One sampler tick, from src/main.rs lines 815-842.  The Rust code builds
`progress` with `progress += 0.45 * reference_progress / reference_maximum`
etc. starting from `0.0`; the chain of `fadd` applications starting from
`FloatV.num 0` mirrors those `+=` steps, and each summand keeps the source's
association `(0.45 * x) / y` (Rust `*` and `/` associate left). -/
def sampleStageProgress (totalPixels : ℕ) (c : ProgressCounters) : ℕ × FloatV :=
  if c.seriesValidation < 2 then
    (0, fadd (fadd (fadd (FloatV.num 0)
        (fdiv (fmul (.num (45/100)) (.num (c.reference : ℚ)))
          (.num (c.referenceMaximum : ℚ))))
        (fdiv (fmul (.num (45/100)) (.num (c.seriesApproximation : ℚ)))
          (.num (c.referenceMaximum : ℚ))))
        (fdiv (fmul (.num (1/10)) (.num (c.seriesValidation : ℚ))) (.num 2)))
  else if c.glitchedMaximum ≠ 0 then
    (2, fdiv (fsub (.num (c.iteration : ℚ))
          (.num ((totalPixels : ℚ) - (c.glitchedMaximum : ℚ))))
        (.num (c.glitchedMaximum : ℚ)))
  else
    (1, fdiv (.num (c.iteration : ℚ)) (.num (totalPixels : ℚ)))

/-- Follows the spec's words (section 4.2, steps 1-3): if seriesValidation
is below 2 the snapshot is stage 0 with fraction
0.45 * reference/referenceMaximum + 0.45 * seriesApproximation/referenceMaximum
+ 0.10 * seriesValidation/2; otherwise, with glitchedMaximum nonzero it is
stage 2 with fraction (iteration - (totalPixels - glitchedMaximum)) /
glitchedMaximum, and with glitchedMaximum zero it is stage 1 with fraction
iteration / totalPixels.  Operator association is Rust's (left for `*`/`/`). -/
def specSampleStageProgress (totalPixels : ℕ) (c : ProgressCounters) : ℕ × FloatV :=
  if c.seriesValidation < 2 then
    (0, fadd (fadd
        (fdiv (fmul (.num (45/100)) (.num (c.reference : ℚ)))
          (.num (c.referenceMaximum : ℚ)))
        (fdiv (fmul (.num (45/100)) (.num (c.seriesApproximation : ℚ)))
          (.num (c.referenceMaximum : ℚ))))
        (fdiv (fmul (.num (1/10)) (.num (c.seriesValidation : ℚ))) (.num 2)))
  else if c.glitchedMaximum ≠ 0 then
    (2, fdiv (fsub (.num (c.iteration : ℚ))
          (.num ((totalPixels : ℚ) - (c.glitchedMaximum : ℚ))))
        (.num (c.glitchedMaximum : ℚ)))
  else
    (1, fdiv (.num (c.iteration : ℚ)) (.num (totalPixels : ℚ)))

/-- C4 (confirmed): each sampler tick emits exactly the snapshot the spec's
three-step rule describes: stage 0 with the 0.45/0.45/0.10-weighted fraction
while seriesValidation < 2, else stage 2 with the glitch-correction fraction
when glitchedMaximum is nonzero, else stage 1 with iteration/totalPixels. -/
theorem sampler_tick_matches_spec_formula (totalPixels : ℕ) (c : ProgressCounters) :
    sampleStageProgress totalPixels c = specSampleStageProgress totalPixels c := by
  unfold sampleStageProgress specSampleStageProgress
  split
  · rw [fadd_zero_left]
  · rfl

/-- Counters as they stand at the start of a render (all reset to 0). -/
def countersAtStart : ProgressCounters :=
  { reference := 0, referenceMaximum := 0, seriesApproximation := 0,
    seriesValidation := 0, iteration := 0, glitchedMaximum := 0,
    minSeriesApproximation := 0 }

/-- C2 (code_bug): at a sampler tick where referenceMaximum reads 0 (all
counters still at their reset value, as at render start), the division
0.45 * 0 / 0 is unguarded and the derived fraction is NaN, not 0, and this
NaN snapshot is what gets submitted to the presentation sink. -/
theorem sampler_zero_reference_maximum_is_nan :
    sampleStageProgress 1 countersAtStart = (0, FloatV.nan) ∧
    FloatV.nan ≠ FloatV.num 0 := by
  constructor
  · simp [sampleStageProgress, countersAtStart, fmul, fdiv, fadd]
  · decide

/-- Componentwise ordering of two counter snapshots: the later snapshot of a
render has every counter at least as large (counters only ever increment
during a render). -/
def countersLE (c c2 : ProgressCounters) : Prop :=
  c.reference ≤ c2.reference ∧
  c.referenceMaximum ≤ c2.referenceMaximum ∧
  c.seriesApproximation ≤ c2.seriesApproximation ∧
  c.seriesValidation ≤ c2.seriesValidation ∧
  c.iteration ≤ c2.iteration ∧
  c.glitchedMaximum ≤ c2.glitchedMaximum ∧
  c.minSeriesApproximation ≤ c2.minSeriesApproximation

instance decCountersLE (c c2 : ProgressCounters) : Decidable (countersLE c c2) := by
  unfold countersLE
  infer_instance

theorem sampleStage_eq (tp : ℕ) (c : ProgressCounters) :
    (sampleStageProgress tp c).1 =
      if c.seriesValidation < 2 then 0
      else if c.glitchedMaximum ≠ 0 then 2 else 1 := by
  unfold sampleStageProgress
  split_ifs <;> rfl

/-- Counters early in a glitch-correction pass: series validation done,
10 of the 100 pixels glitched, but the iteration counter still reads 0. -/
def glitchStartCounters : ProgressCounters :=
  { reference := 0, referenceMaximum := 1, seriesApproximation := 0,
    seriesValidation := 2, iteration := 0, glitchedMaximum := 10,
    minSeriesApproximation := 0 }

/-- C3 counterexample: with seriesValidation = 2, glitchedMaximum = 10,
totalPixels = 100 and iteration = 0 the sampler derives the fraction
(0 - (100 - 10)) / 10 = -9, which lies outside [0, 1], refuting the claim
that every derived fraction lies in the closed interval [0, 1]. -/
theorem sampler_fraction_outside_unit_cex :
    (sampleStageProgress 100 glitchStartCounters).2 = FloatV.num (-9) ∧
    ¬ inUnitInterval (sampleStageProgress 100 glitchStartCounters).2 := by
  have h : (sampleStageProgress 100 glitchStartCounters).2 = FloatV.num (-9) := by
    norm_num [sampleStageProgress, glitchStartCounters, fsub, fdiv]
  refine ⟨h, ?_⟩
  rw [h]
  decide

/-- C3 (corrected, amended): under the counter ranges the renderer maintains
mid-render (a positive referenceMaximum bounding reference and
seriesApproximation, a positive pixel count bounding iteration, and at least
totalPixels - glitchedMaximum pixels already iterated), the derived fraction
lies in [0, 1]; and for any later counter snapshot of the same render (all
counters componentwise at least as large) the derived stage is at least the
earlier one, so stages are monotonically non-decreasing.  Unconditionally the
fraction can leave [0, 1] (see the counterexample). -/
theorem sampler_fraction_bounded_and_stage_monotone
    (tp : ℕ) (c c2 : ProgressCounters)
    (hrm : 0 < c.referenceMaximum)
    (href : c.reference ≤ c.referenceMaximum)
    (hsa : c.seriesApproximation ≤ c.referenceMaximum)
    (htp : 0 < tp)
    (hit : c.iteration ≤ tp)
    (hglo : tp ≤ c.iteration + c.glitchedMaximum)
    (hmono : countersLE c c2) :
    inUnitInterval (sampleStageProgress tp c).2 ∧
    (sampleStageProgress tp c).1 ≤ (sampleStageProgress tp c2).1 := by
  have hrmq : (0 : ℚ) < (c.referenceMaximum : ℚ) := by exact_mod_cast hrm
  have htpq : (0 : ℚ) < (tp : ℚ) := by exact_mod_cast htp
  constructor
  · unfold sampleStageProgress
    by_cases hsv : c.seriesValidation < 2
    · rw [if_pos hsv]
      have hrm0 : (((c.referenceMaximum : ℚ)) = 0) = False := by
        simp [hrmq.ne']
      have h20 : (((2 : ℚ)) = 0) = False := by norm_num
      simp only [fmul, fdiv, fadd, hrm0, h20, if_false, inUnitInterval]
      have hrefq : (c.reference : ℚ) ≤ (c.referenceMaximum : ℚ) := by
        exact_mod_cast href
      have hsaq : (c.seriesApproximation : ℚ) ≤ (c.referenceMaximum : ℚ) := by
        exact_mod_cast hsa
      have hsvq : (c.seriesValidation : ℚ) ≤ 1 := by
        exact_mod_cast Nat.lt_succ_iff.mp hsv
      constructor
      · positivity
      · have b1 : 45/100 * (c.reference : ℚ) / (c.referenceMaximum : ℚ) ≤ 45/100 := by
          rw [div_le_iff₀ hrmq]
          nlinarith
        have b2 : 45/100 * (c.seriesApproximation : ℚ) / (c.referenceMaximum : ℚ) ≤ 45/100 := by
          rw [div_le_iff₀ hrmq]
          nlinarith
        have b3 : 1/10 * (c.seriesValidation : ℚ) / 2 ≤ 1/20 := by
          rw [div_le_iff₀ (by norm_num : (0:ℚ) < 2)]
          nlinarith
        linarith
    · rw [if_neg hsv]
      by_cases hg : c.glitchedMaximum ≠ 0
      · rw [if_pos hg]
        have hgq : (0 : ℚ) < (c.glitchedMaximum : ℚ) := by
          exact_mod_cast Nat.pos_of_ne_zero hg
        have hg0 : (((c.glitchedMaximum : ℚ)) = 0) = False := by
          simp [hgq.ne']
        simp only [fsub, fdiv, hg0, if_false, inUnitInterval]
        have hgloq : (tp : ℚ) ≤ (c.iteration : ℚ) + (c.glitchedMaximum : ℚ) := by
          exact_mod_cast hglo
        have hitq : (c.iteration : ℚ) ≤ (tp : ℚ) := by exact_mod_cast hit
        constructor
        · apply div_nonneg _ hgq.le
          linarith
        · rw [div_le_one hgq]
          linarith
      · rw [if_neg hg]
        have htp0 : (((tp : ℚ)) = 0) = False := by
          simp [htpq.ne']
        simp only [fdiv, htp0, if_false, inUnitInterval]
        constructor
        · positivity
        · rw [div_le_one htpq]
          exact_mod_cast hit
  · obtain ⟨-, -, -, hsvle, -, hgle, -⟩ := hmono
    rw [sampleStage_eq, sampleStage_eq]
    split_ifs <;> omega

/-- Witness counters: a mid-render snapshot satisfying all the range
hypotheses, and a later snapshot with every counter at least as large. -/
def samplerWitnessCounters : ProgressCounters :=
  { reference := 1, referenceMaximum := 2, seriesApproximation := 1,
    seriesValidation := 0, iteration := 2, glitchedMaximum := 3,
    minSeriesApproximation := 0 }

def samplerWitnessCountersLater : ProgressCounters :=
  { reference := 2, referenceMaximum := 2, seriesApproximation := 2,
    seriesValidation := 2, iteration := 4, glitchedMaximum := 3,
    minSeriesApproximation := 1 }

/-- Witness for the amended C3 theorem at a concrete pair of snapshots. -/
theorem sampler_fraction_bounded_and_stage_monotone_witness :
    inUnitInterval (sampleStageProgress 4 samplerWitnessCounters).2 ∧
    (sampleStageProgress 4 samplerWitnessCounters).1 ≤
      (sampleStageProgress 4 samplerWitnessCountersLater).1 :=
  sampler_fraction_bounded_and_stage_monotone 4
    samplerWitnessCounters samplerWitnessCountersLater
    (by decide) (by decide) (by decide) (by decide) (by decide) (by decide)
    (by decide)

/-! ## Parameter mutation state machine

The committed key/value settings store and the live renderer configuration,
restricted to the numeric fields (image_width/image_height/iterations as
i64, rotate as f64 degrees in the `Config`; the renderer's usize dimensions
and iteration maxima and its f64 radian rotation).  f64 values are modelled
as exact rationals.  The presentation-layer temporaries (`data.temporary_*`)
mirror the same writes and are omitted.  This restricted model carries the
set_iterations handler for C5; the extended model with every shared
settings/renderer field and every committed mutation follows below (C8). -/

structure SettingsModel where
  imageWidth : ℤ
  imageHeight : ℤ
  iterations : ℤ
  rotate : ℚ
deriving DecidableEq, Repr

structure RendererModel where
  imageWidth : ℕ
  imageHeight : ℕ
  maximumIteration : ℕ
  exportMaximumIteration : ℕ
  rotateRadians : ℚ
deriving DecidableEq, Repr

/-- Side effects a handler performs: a call to `data_export.regenerate()`,
or a submitted druid command (`repaint`, `reset_renderer_fast`,
`reset_renderer_full`). -/
inductive Emission where
  | regenerate
  | repaintCmd
  | resetFastCmd
  | resetFullCmd
deriving DecidableEq, Repr

/-- The set_iterations handler, src/main.rs lines 255-273: if the requested
count equals the export maximum, do nothing; otherwise commit it to the
settings store, then either (at most the computed maximum) lower only the
export maximum, regenerate and repaint, or (above the computed maximum)
submit a full reset.  Note the cheap path leaves
`renderer.maximum_iteration` untouched. -/
def set_iterations_handler (n : ℤ) (s : SettingsModel) (r : RendererModel) :
    SettingsModel × RendererModel × List Emission :=
  if iusize n = r.exportMaximumIteration then
    (s, r, [])
  else
    let s1 := { s with iterations := n }
    if iusize n ≤ r.maximumIteration then
      (s1, { r with exportMaximumIteration := iusize n },
       [.regenerate, .repaintCmd])
    else
      (s1, r, [.resetFullCmd])

/-- Truncation toward zero, as Rust's `%` on f64 truncates the quotient. -/
def qtrunc (q : ℚ) : ℤ := if 0 ≤ q then ⌊q⌋ else ⌈q⌉

/-- Rust's f64 remainder `a % b` (truncated division remainder), exact. -/
def frem (a b : ℚ) : ℚ := a - b * (qtrunc (a / b) : ℚ)

/-- C5 (confirmed): a set_iterations intent whose count differs from the
current export maximum either (count at most the computed maximum) emits
exactly a regenerate of the existing iteration buffer followed by a repaint
and enqueues no render request, or (count above the computed maximum) emits
exactly one full render request. -/
theorem set_iterations_minimal_action (n : ℤ) (s : SettingsModel) (r : RendererModel)
    (h0 : 0 ≤ n) (h63 : n < 2 ^ 63)
    (hne : n.toNat ≠ r.exportMaximumIteration) :
    (n.toNat ≤ r.maximumIteration →
      set_iterations_handler n s r =
        ({ s with iterations := n },
         { r with exportMaximumIteration := n.toNat },
         [Emission.regenerate, Emission.repaintCmd])) ∧
    (r.maximumIteration < n.toNat →
      set_iterations_handler n s r =
        ({ s with iterations := n }, r, [Emission.resetFullCmd])) := by
  have hcast : iusize n = n.toNat := by
    apply iusize_of_nonneg h0
    have : ((2:ℤ) ^ 63) < ((usizeMod : ℕ) : ℤ) := by
      unfold usizeMod
      norm_num
    omega
  unfold set_iterations_handler
  rw [hcast]
  constructor
  · intro hle
    rw [if_neg hne, if_pos hle]
  · intro hgt
    rw [if_neg hne, if_neg (by omega)]

def witnessSettings : SettingsModel :=
  { imageWidth := 1000, imageHeight := 1000, iterations := 2000, rotate := 0 }

def witnessRenderer : RendererModel :=
  { imageWidth := 1000, imageHeight := 1000, maximumIteration := 2000,
    exportMaximumIteration := 2000, rotateRadians := 0 }

/-- Witness for C5 at concrete inputs: lowering 2000 → 500 with computed
maximum 2000 takes the regenerate-and-repaint path; the full conjunction is
instantiated with the cheap-path antecedent satisfied. -/
theorem set_iterations_minimal_action_witness :
    ((500 : ℤ).toNat ≤ (witnessRenderer).maximumIteration →
      set_iterations_handler 500 witnessSettings witnessRenderer =
        ({ witnessSettings with iterations := 500 },
         { witnessRenderer with exportMaximumIteration := (500 : ℤ).toNat },
         [Emission.regenerate, Emission.repaintCmd])) ∧
    ((witnessRenderer).maximumIteration < (500 : ℤ).toNat →
      set_iterations_handler 500 witnessSettings witnessRenderer =
        ({ witnessSettings with iterations := 500 }, witnessRenderer,
         [Emission.resetFullCmd])) :=
  set_iterations_minimal_action 500 witnessSettings witnessRenderer
    (by norm_num) (by norm_num) (by decide)

/-! ## Committed mutations and settings/renderer agreement (C8)

The full (settings, renderer) state over every shared field of the claim:
real, imag, zoom, iterations, rotate and the image dimensions.  The settings
`Config` holds real/imag/zoom as strings (arbitrary-precision decimal text),
rotate as an f64 degree value (every read of the key is `get_float`, so the
committed entry is modelled by that parsed value) and the dimensions and
iteration count as i64.  The renderer holds the parsed values: its current
`zoom` is a FloatExtended (mantissa and exponent, modelled exactly), its
location is the centre reference's high-precision point (an arbitrary
precision decimal, hence a rational), its rotation is in radians, and the
centre reference also records the zoom exponent it was computed at.  The
external functions the handlers call - `String::to_uppercase`,
`string_to_extended`, `extended_to_string_long`, `FloatExtended::reduce`,
the high-precision parse of the location strings, `f64::to_radians` and the
float-to-string conversion used in the set_location rotation comparison -
live in rust std / the rust-fractal library, so the embedding takes them as
one bundle of function parameters.  -/

/-- The mantissa/exponent pair of the library's FloatExtended, exact. -/
structure FloatExt where
  mantissa : ℚ
  exponent : ℤ
deriving DecidableEq, Repr

structure SettingsStore where
  real : String
  imag : String
  zoom : String
  iterations : ℤ
  rotate : ℚ
  imageWidth : ℤ
  imageHeight : ℤ
deriving DecidableEq, Repr

structure RendererState where
  imageWidth : ℕ
  imageHeight : ℕ
  maximumIteration : ℕ
  exportMaximumIteration : ℕ
  rotateRadians : ℚ
  zoom : FloatExt
  centerReferenceZoomExponent : ℤ
  centerReal : ℚ
  centerImag : ℚ
deriving DecidableEq, Repr

/-- The external collaborator functions (rust std and the rust-fractal
library) the mutation handlers call, passed to the embedding as
parameters. -/
structure ExternalFns where
  toUpper : String → String
  parseZoom : String → FloatExt
  zoomToString : FloatExt → String
  reduceExt : FloatExt → FloatExt
  parseLoc : String → ℚ
  toRadians : ℚ → ℚ
  rotToString : ℚ → String

/-- Side effects of a mutation handler: a `data_export.regenerate()` call or
a submitted druid command (repaint, fast/full reset, or a re-dispatched
set_rotation / set_iterations command carrying its payload). -/
inductive EmissionFull where
  | regenerate
  | repaintCmd
  | resetFastCmd
  | resetFullCmd
  | setRotationCmd (value : ℚ)
  | setIterationsCmd (n : ℤ)
deriving DecidableEq, Repr

/-- The set_image_size handler, src/main.rs lines 238-251: if the requested
dimensions equal the renderer's current ones, do nothing; otherwise commit
them to the settings store and the renderer and submit a fast reset. -/
def set_image_size_full (w h : ℤ) (s : SettingsStore) (r : RendererState) :
    SettingsStore × RendererState × List EmissionFull :=
  if iusize w = r.imageWidth ∧ iusize h = r.imageHeight then
    (s, r, [])
  else
    ({ s with imageWidth := w, imageHeight := h },
     { r with imageWidth := iusize w, imageHeight := iusize h },
     [.resetFastCmd])

/-- The set_iterations handler again (src/main.rs lines 255-273), over the
full state: the cheap path lowers only the export maximum. -/
def set_iterations_full (n : ℤ) (s : SettingsStore) (r : RendererState) :
    SettingsStore × RendererState × List EmissionFull :=
  if iusize n = r.exportMaximumIteration then
    (s, r, [])
  else
    let s1 := { s with iterations := n }
    if iusize n ≤ r.maximumIteration then
      (s1, { r with exportMaximumIteration := iusize n },
       [.regenerate, .repaintCmd])
    else
      (s1, r, [.resetFullCmd])

/-- The set_rotation handler, src/main.rs lines 398-409: normalise the
requested angle into [0, 360) with `(rotation % 360.0 + 360.0) % 360.0`,
commit the degree value to the settings store and the radian value to the
renderer, and submit a fast reset. -/
def set_rotation_full (E : ExternalFns) (rotation : ℚ)
    (s : SettingsStore) (r : RendererState) :
    SettingsStore × RendererState × List EmissionFull :=
  let newRotate := frem (frem rotation 360 + 360) 360
  ({ s with rotate := newRotate },
   { r with rotateRadians := E.toRadians newRotate },
   [.resetFastCmd])

/-- The multiply_zoom_level handler, src/main.rs lines 367-377: scale the
renderer's zoom mantissa, `reduce()` it, write the resulting extended value
back into the settings store through extended_to_string_long, and submit a
fast reset. -/
def multiply_zoom_level_full (E : ExternalFns) (factor : ℚ)
    (s : SettingsStore) (r : RendererState) :
    SettingsStore × RendererState × List EmissionFull :=
  let newZoom := E.reduceExt ⟨r.zoom.mantissa * factor, r.zoom.exponent⟩
  ({ s with zoom := E.zoomToString newZoom },
   { r with zoom := newZoom },
   [.resetFastCmd])

/-- The settings store after the full-reset block of the set_location
handler, src/main.rs lines 357-361: real, imag, zoom, rotate and iterations
are all committed from the temporaries (the rotate entry is committed as
the temporary rotation string; `tRV` is its parsed float value, which is
what every later `get_float("rotate")` read observes). -/
def locationFullCommit (tR tI tZ : String) (tRV : ℚ) (tIt : ℤ)
    (s : SettingsStore) : SettingsStore :=
  { s with
    real := tR, imag := tI, zoom := tZ, rotate := tRV,
    iterations := tIt }

/-- The set_location handler, src/main.rs lines 298-365, with its state
updates and submitted commands.  `tRT` is the temporary rotation string
compared against `settings.get_float("rotate").to_string()`; `tRV` its
parsed f64 value (line 317; note line 334 submits the unparsed Result, so
that re-dispatch may be dropped by the receiving handler - the payload does
not affect this handler's own state updates).  In the rotation-and-
iterations branch the settings iteration count is committed first (line
329); below the computed maximum the renderer's maximum is trimmed to match
(line 333), otherwise control falls through to the full-reset block, which
recommits every location field. -/
def set_location_commit (E : ExternalFns)
    (tR tI tZ tRT : String) (tRV : ℚ) (tIt : ℤ)
    (s : SettingsStore) (r : RendererState) :
    SettingsStore × RendererState × List EmissionFull :=
  if s.real = tR ∧ s.imag = tI then
    if E.toUpper s.zoom = E.toUpper tZ then
      if E.rotToString s.rotate = tRT ∧ s.iterations = tIt then
        (s, r, [])
      else if s.iterations = tIt then
        (s, r, [.setRotationCmd tRV])
      else if E.rotToString s.rotate = tRT then
        (s, r, [.setIterationsCmd tIt])
      else
        let s1 := { s with iterations := tIt }
        if iusize tIt < r.maximumIteration then
          (s1, { r with maximumIteration := iusize tIt },
           [.setRotationCmd tRV])
        else
          (locationFullCommit tR tI tZ tRV tIt s1, r, [.resetFullCmd])
    else
      if (E.parseZoom (E.toUpper tZ)).exponent ≤
          r.centerReferenceZoomExponent then
        ({ s with zoom := tZ },
         { r with zoom := E.parseZoom (E.toUpper tZ) },
         [.resetFastCmd])
      else
        (locationFullCommit tR tI tZ tRV tIt s, r, [.resetFullCmd])
  else
    (locationFullCommit tR tI tZ tRV tIt s, r, [.resetFullCmd])

inductive CommittedMutation where
  | setImageSize (w h : ℤ)
  | setIterations (n : ℤ)
  | setRotation (rotation : ℚ)
  | multiplyZoom (factor : ℚ)
  | setLocation (tempReal tempImag tempZoom tempRotationText : String)
      (tempRotationValue : ℚ) (tempIterations : ℤ)
deriving DecidableEq, Repr

def applyCommittedMutation (E : ExternalFns) (m : CommittedMutation)
    (s : SettingsStore) (r : RendererState) :
    SettingsStore × RendererState × List EmissionFull :=
  match m with
  | .setImageSize w h => set_image_size_full w h s r
  | .setIterations n => set_iterations_full n s r
  | .setRotation rot => set_rotation_full E rot s r
  | .multiplyZoom factor => multiply_zoom_level_full E factor s r
  | .setLocation tR tI tZ tRT tRV tIt =>
      set_location_commit E tR tI tZ tRT tRV tIt s r

/-- Modelled from the spec: `FractalRenderer::new(settings)` lives in the
external rust-fractal library (spec section 6, Renderer collaborator); a
full reset replaces the whole renderer with one built from the settings
store (src/main.rs line 790), so each renderer field - dimensions, both
iteration maxima, rotation, the zoom and the centre reference's location
and zoom exponent - is initialised by parsing the corresponding settings
entry. -/
def rendererFromSettingsStore (E : ExternalFns) (s : SettingsStore) :
    RendererState :=
  { imageWidth := iusize s.imageWidth,
    imageHeight := iusize s.imageHeight,
    maximumIteration := iusize s.iterations,
    exportMaximumIteration := iusize s.iterations,
    rotateRadians := E.toRadians s.rotate,
    zoom := E.parseZoom (E.toUpper s.zoom),
    centerReferenceZoomExponent := (E.parseZoom (E.toUpper s.zoom)).exponent,
    centerReal := E.parseLoc s.real,
    centerImag := E.parseLoc s.imag }

/-- State of the (settings, renderer) pair once the render or local update a
mutation requested has completed: a full reset rebuilds the renderer from
the settings store; a fast reset and the repaint-only and re-dispatch paths
leave the handler-mutated renderer as is. -/
def completeCommittedMutation (E : ExternalFns) (m : CommittedMutation)
    (s : SettingsStore) (r : RendererState) : SettingsStore × RendererState :=
  match applyCommittedMutation E m s r with
  | (s1, r1, es) =>
      if EmissionFull.resetFullCmd ∈ es then
        (s1, rendererFromSettingsStore E s1)
      else (s1, r1)

/-- Agreement of the settings store and the renderer on every shared field
of the claim: image dimensions, iteration count, rotation (the renderer
holds the radian image of the committed degrees), zoom (the renderer holds
the parse of the committed string) and the real/imag location (the renderer
holds the parses of the committed strings). -/
def agreesOnSharedFields (E : ExternalFns) (s : SettingsStore)
    (r : RendererState) : Prop :=
  r.imageWidth = iusize s.imageWidth ∧
  r.imageHeight = iusize s.imageHeight ∧
  r.maximumIteration = iusize s.iterations ∧
  r.rotateRadians = E.toRadians s.rotate ∧
  r.zoom = E.parseZoom (E.toUpper s.zoom) ∧
  r.centerReal = E.parseLoc s.real ∧
  r.centerImag = E.parseLoc s.imag

instance decAgreesOnSharedFields (E : ExternalFns) (s : SettingsStore)
    (r : RendererState) : Decidable (agreesOnSharedFields E s r) := by
  unfold agreesOnSharedFields
  infer_instance

/-- An iteration-count intent that strictly lowers the count below the
renderer's computed maximum while differing from the export maximum: the one
committed mutation whose cheap path leaves the renderer's maximum_iteration
out of step with the settings store. -/
def iterationDecreaseIntent : CommittedMutation → RendererState → Prop
  | .setIterations n, r =>
      iusize n ≠ r.exportMaximumIteration ∧ iusize n < r.maximumIteration
  | _, _ => False

instance decIterationDecreaseIntent (m : CommittedMutation)
    (r : RendererState) : Decidable (iterationDecreaseIntent m r) := by
  cases m <;> unfold iterationDecreaseIntent <;> infer_instance

/-- The parse/print round trip of the external zoom representation at the
one value the multiply_zoom_level handler writes back through
extended_to_string_long (spec section 6: the quoted decimal zoom string
preserves arbitrary precision, so re-parsing it recovers the value); the
obligation is trivial for every other mutation. -/
def zoomRoundTrips (E : ExternalFns) : CommittedMutation → RendererState → Prop
  | .multiplyZoom factor, r =>
      E.parseZoom (E.toUpper (E.zoomToString
        (E.reduceExt ⟨r.zoom.mantissa * factor, r.zoom.exponent⟩))) =
      E.reduceExt ⟨r.zoom.mantissa * factor, r.zoom.exponent⟩
  | _, _ => True

instance decZoomRoundTrips (E : ExternalFns) (m : CommittedMutation)
    (r : RendererState) : Decidable (zoomRoundTrips E m r) := by
  cases m <;> unfold zoomRoundTrips <;> infer_instance

/-- A concrete instantiation of the external functions for the closed
theorems below: uppercasing and reduction are the identity and every parse
is constant, consistent with the concrete states they are applied to. -/
def trivialExternal : ExternalFns :=
  { toUpper := id, parseZoom := fun _ => ⟨1, 0⟩,
    zoomToString := fun _ => "1E0", reduceExt := id, parseLoc := fun _ => 0,
    toRadians := id, rotToString := fun _ => "0" }

def divergenceSettings : SettingsStore :=
  { real := "0", imag := "0", zoom := "1E0", iterations := 1000, rotate := 0,
    imageWidth := 100, imageHeight := 100 }

def divergenceRenderer : RendererState :=
  { imageWidth := 100, imageHeight := 100, maximumIteration := 1000,
    exportMaximumIteration := 1000, rotateRadians := 0, zoom := ⟨1, 0⟩,
    centerReferenceZoomExponent := 0, centerReal := 0, centerImag := 0 }

/-- C8 counterexample: starting from an agreeing pair with computed maximum
1000, committing the iteration change to 500 completes with the settings
store at 500 but the renderer's maximum_iteration still at 1000 (only the
export maximum was lowered), so the two no longer agree on the iterations
field. -/
theorem commit_iteration_decrease_divergence_cex :
    agreesOnSharedFields trivialExternal divergenceSettings divergenceRenderer ∧
    (completeCommittedMutation trivialExternal (.setIterations 500)
        divergenceSettings divergenceRenderer).1.iterations = 500 ∧
    (completeCommittedMutation trivialExternal (.setIterations 500)
        divergenceSettings divergenceRenderer).2.maximumIteration = 1000 ∧
    ¬ agreesOnSharedFields trivialExternal
        (completeCommittedMutation trivialExternal (.setIterations 500)
          divergenceSettings divergenceRenderer).1
        (completeCommittedMutation trivialExternal (.setIterations 500)
          divergenceSettings divergenceRenderer).2 := by
  decide

/-- C8 (corrected, amended): committing any of the five mutations - image
resize, iteration change, rotation change, zoom change, location change -
to an agreeing (settings, renderer) pair leaves the two agreeing on every
shared field (real, imag, zoom, iterations, rotate, image dimensions) once
the corresponding render or local update completes, except after an
iteration-count decrease below the currently computed maximum (and
differing from the export maximum), which updates only the export maximum
and leaves the renderer's maximum_iteration above the newly stored count
(the excluded counterexample case). -/
theorem commit_mutation_agreement (E : ExternalFns) (m : CommittedMutation)
    (s : SettingsStore) (r : RendererState)
    (hz : zoomRoundTrips E m r)
    (h : agreesOnSharedFields E s r)
    (hnd : ¬ iterationDecreaseIntent m r) :
    agreesOnSharedFields E (completeCommittedMutation E m s r).1
      (completeCommittedMutation E m s r).2 := by
  obtain ⟨h1, h2, h3, h4, h5, h6, h7⟩ := h
  cases m with
  | setImageSize w hh =>
      by_cases hg : iusize w = r.imageWidth ∧ iusize hh = r.imageHeight
      · simp only [completeCommittedMutation, applyCommittedMutation,
          set_image_size_full, if_pos hg]
        exact ⟨h1, h2, h3, h4, h5, h6, h7⟩
      · simp only [completeCommittedMutation, applyCommittedMutation,
          set_image_size_full, if_neg hg]
        exact ⟨rfl, rfl, h3, h4, h5, h6, h7⟩
  | setIterations n =>
      by_cases hg : iusize n = r.exportMaximumIteration
      · simp only [completeCommittedMutation, applyCommittedMutation,
          set_iterations_full, if_pos hg]
        exact ⟨h1, h2, h3, h4, h5, h6, h7⟩
      · by_cases hle : iusize n ≤ r.maximumIteration
        · have heq : iusize n = r.maximumIteration := by
            unfold iterationDecreaseIntent at hnd
            omega
          simp only [completeCommittedMutation, applyCommittedMutation,
            set_iterations_full, if_neg hg, if_pos hle]
          exact ⟨h1, h2, heq.symm, h4, h5, h6, h7⟩
        · simp only [completeCommittedMutation, applyCommittedMutation,
            set_iterations_full, if_neg hg, if_neg hle]
          exact ⟨rfl, rfl, rfl, rfl, rfl, rfl, rfl⟩
  | setRotation rot =>
      simp only [completeCommittedMutation, applyCommittedMutation,
        set_rotation_full]
      exact ⟨h1, h2, h3, rfl, h5, h6, h7⟩
  | multiplyZoom factor =>
      simp only [zoomRoundTrips] at hz
      simp only [completeCommittedMutation, applyCommittedMutation,
        multiply_zoom_level_full]
      exact ⟨h1, h2, h3, h4, hz.symm, h6, h7⟩
  | setLocation tR tI tZ tRT tRV tIt =>
      by_cases c1 : s.real = tR ∧ s.imag = tI
      · by_cases c2 : E.toUpper s.zoom = E.toUpper tZ
        · by_cases c3 : E.rotToString s.rotate = tRT ∧ s.iterations = tIt
          · simp only [completeCommittedMutation, applyCommittedMutation,
              set_location_commit, if_pos c1, if_pos c2, if_pos c3]
            exact ⟨h1, h2, h3, h4, h5, h6, h7⟩
          · by_cases c4 : s.iterations = tIt
            · simp only [completeCommittedMutation, applyCommittedMutation,
                set_location_commit, if_pos c1, if_pos c2, if_neg c3,
                if_pos c4]
              exact ⟨h1, h2, h3, h4, h5, h6, h7⟩
            · by_cases c5 : E.rotToString s.rotate = tRT
              · simp only [completeCommittedMutation, applyCommittedMutation,
                  set_location_commit, if_pos c1, if_pos c2, if_neg c3,
                  if_neg c4, if_pos c5]
                exact ⟨h1, h2, h3, h4, h5, h6, h7⟩
              · by_cases c6 : iusize tIt < r.maximumIteration
                · simp only [completeCommittedMutation, applyCommittedMutation,
                    set_location_commit, if_pos c1, if_pos c2, if_neg c3,
                    if_neg c4, if_neg c5, if_pos c6]
                  exact ⟨h1, h2, rfl, h4, h5, h6, h7⟩
                · simp only [completeCommittedMutation, applyCommittedMutation,
                    set_location_commit, if_pos c1, if_pos c2, if_neg c3,
                    if_neg c4, if_neg c5, if_neg c6]
                  exact ⟨rfl, rfl, rfl, rfl, rfl, rfl, rfl⟩
        · by_cases c7 : (E.parseZoom (E.toUpper tZ)).exponent ≤
              r.centerReferenceZoomExponent
          · simp only [completeCommittedMutation, applyCommittedMutation,
              set_location_commit, if_pos c1, if_neg c2, if_pos c7]
            exact ⟨h1, h2, h3, h4, rfl, h6, h7⟩
          · simp only [completeCommittedMutation, applyCommittedMutation,
              set_location_commit, if_pos c1, if_neg c2, if_neg c7]
            exact ⟨rfl, rfl, rfl, rfl, rfl, rfl, rfl⟩
      · simp only [completeCommittedMutation, applyCommittedMutation,
          set_location_commit, if_neg c1]
        exact ⟨rfl, rfl, rfl, rfl, rfl, rfl, rfl⟩

/-- Witness for the amended C8 theorem: committing a zoom change (mantissa
doubling would need a nontrivial reduce; factor 1 keeps the concrete
external functions' round trip checkable) to a concrete agreeing pair; the
round-trip, agreement and non-decrease hypotheses are all discharged on the
concrete data. -/
theorem commit_mutation_agreement_witness :
    agreesOnSharedFields trivialExternal
      (completeCommittedMutation trivialExternal (.multiplyZoom 1)
        divergenceSettings divergenceRenderer).1
      (completeCommittedMutation trivialExternal (.multiplyZoom 1)
        divergenceSettings divergenceRenderer).2 :=
  commit_mutation_agreement trivialExternal (.multiplyZoom 1)
    divergenceSettings divergenceRenderer
    (by simp [zoomRoundTrips, trivialExternal, divergenceRenderer])
    (by decide) (by decide)

/-! ## Approximation order clamping (C9)

src/main.rs lines 275-296: the handler compares and clamps through the
wrapping `as usize` cast of the i64 `temporary_order`, reassigning the i64
field in between, and commits the result to both the settings store and the
renderer (both receive the same value, so the committed order is returned
once). -/

/-- The set_approximation_order handler, src/main.rs lines 275-296 - `none`
for the early return when the requested order already equals the renderer's,
otherwise the order committed to settings and renderer. -/
def set_approximation_order_handler (tempOrder : ℤ) (currentOrder : ℕ) : Option ℕ :=
  if iusize tempOrder = currentOrder then
    none
  else
    let t1 : ℤ := if 128 < iusize tempOrder then 128 else tempOrder
    let t2 : ℤ := if iusize t1 < 4 then 4 else t1
    some (iusize t2)

/-- C9 counterexample: requesting order -1 (with current order 64) commits
128, not 4: the negative i64 wraps through the `as usize` cast to
2^64 - 1 > 128 and is clamped downward to 128, refuting the claim that
requested values below 4 are clamped to 4. -/
theorem approximation_order_negative_request_cex :
    set_approximation_order_handler (-1) 64 = some 128 ∧
    (128 : ℕ) ≠ 4 := by
  constructor
  · decide
  · decide

/-- C9 (corrected, amended): whenever the requested order differs from the
current one (through the wrapping cast), the committed order lies in
[4, 128]; requests above 128 commit 128, requests in [0, 4) commit 4, and
negative requests - wrapping to values above 128 in the usize comparison -
commit 128 rather than 4; requests already in [4, 128] commit unchanged. -/
theorem approximation_order_clamped (t : ℤ) (cur : ℕ)
    (hlo : -(2 ^ 63) ≤ t) (hhi : t < 2 ^ 63)
    (hne : iusize t ≠ cur) :
    ∃ n, set_approximation_order_handler t cur = some n ∧
      4 ≤ n ∧ n ≤ 128 ∧
      (128 < t → n = 128) ∧
      (t < 0 → n = 128) ∧
      (0 ≤ t → t < 4 → n = 4) ∧
      (4 ≤ t → t ≤ 128 → (n : ℤ) = t) := by
  have hmod : ((usizeMod : ℕ) : ℤ) = 2 ^ 64 := by
    unfold usizeMod
    norm_num
  by_cases hneg : t < 0
  · have hcast : 128 < iusize t := by
      unfold iusize usizeMod
      omega
    refine ⟨128, ?_, by norm_num, by norm_num, by omega, fun _ => rfl,
      by omega, by omega⟩
    unfold set_approximation_order_handler
    rw [if_neg hne]
    simp only [if_pos hcast]
    have h128 : iusize (128 : ℤ) = 128 := by
      unfold iusize usizeMod
      omega
    norm_num [h128]
  · push_neg at hneg
    have hcast : iusize t = t.toNat := by
      unfold iusize usizeMod
      omega
    by_cases hbig : 128 < iusize t
    · refine ⟨128, ?_, by norm_num, by norm_num, fun _ => rfl, by omega,
        by omega, by omega⟩
      unfold set_approximation_order_handler
      rw [if_neg hne]
      simp only [if_pos hbig]
      have h128 : iusize (128 : ℤ) = 128 := by
        unfold iusize usizeMod
        omega
      norm_num [h128]
    · by_cases hsmall : iusize t < 4
      · refine ⟨4, ?_, by norm_num, by norm_num, by omega, by omega,
          fun _ _ => rfl, by omega⟩
        unfold set_approximation_order_handler
        rw [if_neg hne]
        simp only [if_neg hbig, if_pos hsmall]
        have h4 : iusize (4 : ℤ) = 4 := by
          unfold iusize usizeMod
          omega
        rw [h4]
      · refine ⟨iusize t, ?_, by omega, by omega, by omega, by omega,
          by omega, by omega⟩
        unfold set_approximation_order_handler
        rw [if_neg hne]
        simp only [if_neg hbig, if_neg hsmall]

/-- Witness for the amended C9 theorem: requesting order 200 with current
order 64. -/
theorem approximation_order_clamped_witness :
    ∃ n, set_approximation_order_handler 200 64 = some n ∧
      4 ≤ n ∧ n ≤ 128 ∧
      (128 < (200 : ℤ) → n = 128) ∧
      ((200 : ℤ) < 0 → n = 128) ∧
      (0 ≤ (200 : ℤ) → (200 : ℤ) < 4 → n = 4) ∧
      (4 ≤ (200 : ℤ) → (200 : ℤ) ≤ 128 → (n : ℤ) = 200) :=
  approximation_order_clamped 200 64 (by norm_num) (by norm_num) (by decide)

/-! ## The set_location handler (C1)

src/main.rs lines 298-365.  The handler compares the committed settings
strings against the temporary (UI-entered) strings and decides among: do
nothing, re-dispatch as a set_rotation / set_iterations command, trim the
maximum iteration and re-dispatch as set_rotation, reset fast, or reset
full.  The zoom strings are parsed with `string_to_extended` from the
external rust-fractal library; only the exponent of the parsed value takes
part in the decision, so the embedding carries the two parse results
(`refZoomExponent` for renderer.center_reference.zoom.exponent,
`newZoomExponent` for string_to_extended(temporary_zoom.to_uppercase())
.exponent) as fields.  Rust's Unicode `String::to_uppercase` likewise lives
outside the embedding and is passed in as `toUpper`. -/

structure LocationIntent where
  currentReal : String
  currentImag : String
  currentZoom : String
  currentRotationText : String
  currentIterations : ℤ
  tempReal : String
  tempImag : String
  tempZoom : String
  tempRotationText : String
  tempIterations : ℤ
  refZoomExponent : ℤ
  newZoomExponent : ℤ
  rendererMaximumIteration : ℕ
deriving DecidableEq, Repr

inductive LocAction where
  | noChange
  | rotationCmd
  | iterationsCmd
  | rotationCmdTrimmed
  | fastRender
  | fullRender
deriving DecidableEq, Repr

/-- The set_location handler decision, src/main.rs lines 298-365.  The
uppercase zoom-string comparison and each fall-through to the full reset at
lines 355-364 follow the source's control flow. -/
def set_location_handler (toUpper : String → String) (s : LocationIntent) : LocAction :=
  if s.currentReal = s.tempReal ∧ s.currentImag = s.tempImag then
    if toUpper s.currentZoom = toUpper s.tempZoom then
      if s.currentRotationText = s.tempRotationText ∧
          s.currentIterations = s.tempIterations then
        .noChange
      else if s.currentIterations = s.tempIterations then
        .rotationCmd
      else if s.currentRotationText = s.tempRotationText then
        .iterationsCmd
      else if iusize s.tempIterations < s.rendererMaximumIteration then
        .rotationCmdTrimmed
      else
        .fullRender
    else
      if s.newZoomExponent ≤ s.refZoomExponent then .fastRender
      else .fullRender
  else
    .fullRender

/-- A zoom-in at unchanged real/imag: the requested zoom's exponent 266
exceeds the reference exponent 166. -/
def zoomInIntent : LocationIntent :=
  { currentReal := "-0.75", currentImag := "0.1", currentZoom := "1E50",
    currentRotationText := "0", currentIterations := 1000,
    tempReal := "-0.75", tempImag := "0.1", tempZoom := "1E80",
    tempRotationText := "0", tempIterations := 1000,
    refZoomExponent := 166, newZoomExponent := 266,
    rendererMaximumIteration := 1000 }

/-- C1 counterexample: a set_location intent with real/imag (and rotation
and iterations) unchanged and only the zoom differing, whose new zoom
exponent 266 is greater than the reference exponent 166: the claim predicts
the Fast path for E_new ≥ E_ref, but the handler selects the Full path (the
source takes Fast exactly when new_zoom.exponent <= current_exponent). -/
theorem set_location_zoom_direction_cex :
    zoomInIntent.currentReal = zoomInIntent.tempReal ∧
    zoomInIntent.currentImag = zoomInIntent.tempImag ∧
    id zoomInIntent.currentZoom ≠ id zoomInIntent.tempZoom ∧
    zoomInIntent.currentRotationText = zoomInIntent.tempRotationText ∧
    zoomInIntent.currentIterations = zoomInIntent.tempIterations ∧
    zoomInIntent.refZoomExponent ≤ zoomInIntent.newZoomExponent ∧
    set_location_handler id zoomInIntent = LocAction.fullRender := by
  refine ⟨rfl, rfl, ?_, rfl, rfl, by norm_num [zoomInIntent], ?_⟩
  · decide
  · decide

/-- C1 (corrected, amended): for a set_location intent with real and imag
unchanged and the zoom string differing, the handler selects the Fast render
path exactly when the new zoom exponent is less than or equal to the
reference zoom exponent, and the Full render path exactly when the new
exponent is greater (the inequality runs opposite to the claim's). -/
theorem set_location_zoom_branch (toUpper : String → String) (s : LocationIntent)
    (hre : s.currentReal = s.tempReal)
    (him : s.currentImag = s.tempImag)
    (hzo : toUpper s.currentZoom ≠ toUpper s.tempZoom) :
    (set_location_handler toUpper s = LocAction.fastRender ↔
      s.newZoomExponent ≤ s.refZoomExponent) ∧
    (set_location_handler toUpper s = LocAction.fullRender ↔
      s.refZoomExponent < s.newZoomExponent) := by
  unfold set_location_handler
  rw [if_pos ⟨hre, him⟩, if_neg hzo]
  by_cases h : s.newZoomExponent ≤ s.refZoomExponent
  · rw [if_pos h]
    constructor
    · exact ⟨fun _ => h, fun _ => rfl⟩
    · constructor
      · intro hc
        cases hc
      · intro hgt
        omega
  · rw [if_neg h]
    constructor
    · constructor
      · intro hc
        cases hc
      · intro hle
        omega
    · exact ⟨fun _ => by omega, fun _ => rfl⟩

/-- A zoom-out at unchanged real/imag: exponent drops from 166 to 33. -/
def zoomOutIntent : LocationIntent :=
  { currentReal := "-0.75", currentImag := "0.1", currentZoom := "1E50",
    currentRotationText := "0", currentIterations := 1000,
    tempReal := "-0.75", tempImag := "0.1", tempZoom := "1E10",
    tempRotationText := "0", tempIterations := 1000,
    refZoomExponent := 166, newZoomExponent := 33,
    rendererMaximumIteration := 1000 }

/-- Witness for the amended C1 theorem at a concrete zoom-out intent. -/
theorem set_location_zoom_branch_witness :
    (set_location_handler id zoomOutIntent = LocAction.fastRender ↔
      zoomOutIntent.newZoomExponent ≤ zoomOutIntent.refZoomExponent) ∧
    (set_location_handler id zoomOutIntent = LocAction.fullRender ↔
      zoomOutIntent.refZoomExponent < zoomOutIntent.newZoomExponent) :=
  set_location_zoom_branch id zoomOutIntent rfl rfl (by decide)

/-! ## Cancellation counter and the need_full_rerender flag (C7, C10)

The stop flag is an atomic usize counter (`RelaxedCounter`): `inc` and `add`
wrap modulo 2^64.  src/main.rs lines 181-196: the stop_rendering handler
increments it while a render is in flight; the repaint handler, which runs
after every render completes, drains it back to zero with
`add(usize::max_value() - get() + 1)` when it reads a nonzero value and
records `need_full_rerender` accordingly; lines 443-448: the
reset_renderer_fast handler re-submits as reset_renderer_full while
`need_full_rerender` is set (the channel then receives the string
"reset_renderer_full" instead of "reset_renderer_fast"). -/

def counterAdd (c n : ℕ) : ℕ := (c + n) % usizeMod

def counterInc (c : ℕ) : ℕ := counterAdd c 1

/-- The amount the repaint handler adds to drain the stop flag,
`usize::max_value() - v + 1` for the value `v` it just read (v ≥ 1, so the
i64-free usize expression does not itself overflow). -/
def drainAmount (v : ℕ) : ℕ := usizeMax - v + 1

/-- C7 (confirmed): for every stop-flag value v with 1 ≤ v (and v a usize
value), adding usize::max_value() - v + 1 with wrap-around modulo 2^64
returns the counter exactly to 0, so no stale cancel signal carries into the
next render. -/
theorem cancellation_drain_resets (v : ℕ) (h1 : 1 ≤ v) (h2 : v < usizeMod) :
    counterAdd v (drainAmount v) = 0 := by
  unfold counterAdd drainAmount usizeMax usizeMod at *
  omega

/-- Witness for C7 at the smallest cancelled value v = 1. -/
theorem cancellation_drain_resets_witness : counterAdd 1 (drainAmount 1) = 0 :=
  cancellation_drain_resets 1 (by norm_num) (by norm_num [usizeMod])

/-- The widget state the repaint and reset handlers consult: the shared stop
flag and the need_full_rerender bool. -/
structure FlagState where
  stopFlag : ℕ
  needFullRerender : Bool
deriving DecidableEq, Repr

/-- The repaint handler's flag logic, src/main.rs lines 188-196: a nonzero
stop flag is drained via the wrapping add and need_full_rerender is set;
otherwise need_full_rerender is cleared. -/
def repaintStep (s : FlagState) : FlagState :=
  if 1 ≤ s.stopFlag then
    { stopFlag := counterAdd s.stopFlag (drainAmount s.stopFlag),
      needFullRerender := true }
  else
    { s with needFullRerender := false }

/-- The stop_rendering handler's effect while a render is in flight,
src/main.rs lines 181-186 (the `inc`). -/
def stopRenderingStep (s : FlagState) : FlagState :=
  { s with stopFlag := counterInc s.stopFlag }

/-- The message the reset_renderer_fast handler routes to the render thread,
src/main.rs lines 443-458: promoted to a full reset while
need_full_rerender is set. -/
def fastRequestMessage (s : FlagState) : String :=
  if s.needFullRerender then "reset_renderer_full" else "reset_renderer_fast"

/-- Events the widget can process between two repaints: a cancel request
(stop_rendering) or a fast reset request.  (A repaint arrives only when a
render completes, ending the span these traces describe.) -/
inductive UiEvent where
  | stopRendering
  | fastRequest
deriving DecidableEq, Repr

/-- Run a trace of events, collecting the messages sent to the render
thread.  fastRequest sends its (possibly promoted) message and leaves the
flag state unchanged; stopRendering increments the stop flag. -/
def runEvents : FlagState → List UiEvent → FlagState × List String
  | s, [] => (s, [])
  | s, UiEvent.stopRendering :: es => runEvents (stopRenderingStep s) es
  | s, UiEvent.fastRequest :: es =>
      match runEvents s es with
      | (s1, ms) => (s1, fastRequestMessage s :: ms)

/-- C10 (confirmed): if the repaint following a render reads a stop flag of
at least 1, it sets need_full_rerender (and drains the flag to 0); while
need_full_rerender is set, every reset_renderer_fast request - across any
trace of further cancel and fast-reset events before the next repaint - is
promoted, so the render thread never receives "reset_renderer_fast"; and a
repaint that reads a zero stop flag (a render completed without
cancellation) clears the flag. -/
theorem cancellation_promotes_fast_to_full
    (s t u : FlagState) (es : List UiEvent)
    (hs1 : 1 ≤ s.stopFlag) (hs2 : s.stopFlag < usizeMod)
    (ht : t.needFullRerender = true)
    (hu : u.stopFlag = 0) :
    ((repaintStep s).needFullRerender = true ∧ (repaintStep s).stopFlag = 0) ∧
    (fastRequestMessage t = "reset_renderer_full" ∧
      (runEvents t es).1.needFullRerender = true ∧
      "reset_renderer_fast" ∉ (runEvents t es).2) ∧
    (repaintStep u).needFullRerender = false := by
  refine ⟨⟨?_, ?_⟩, ⟨?_, ?_, ?_⟩, ?_⟩
  · unfold repaintStep
    rw [if_pos hs1]
  · unfold repaintStep
    rw [if_pos hs1]
    exact cancellation_drain_resets s.stopFlag hs1 hs2
  · unfold fastRequestMessage
    rw [ht]
    rfl
  · clear hs1 hs2 hu
    induction es generalizing t with
    | nil => exact ht
    | cons e es ih =>
        cases e with
        | stopRendering => exact ih (stopRenderingStep t) ht
        | fastRequest =>
            show (runEvents t (UiEvent.fastRequest :: es)).1.needFullRerender = true
            unfold runEvents
            have := ih t ht
            cases hrun : runEvents t es with
            | mk s1 ms =>
                rw [hrun] at this
                simpa using this
  · clear hs1 hs2 hu
    induction es generalizing t with
    | nil => simp [runEvents]
    | cons e es ih =>
        cases e with
        | stopRendering =>
            show "reset_renderer_fast" ∉
              (runEvents (stopRenderingStep t) es).2
            exact ih (stopRenderingStep t) ht
        | fastRequest =>
            have hmsg : fastRequestMessage t = "reset_renderer_full" := by
              unfold fastRequestMessage
              rw [ht]
              rfl
            have htail := ih t ht
            unfold runEvents
            cases hrun : runEvents t es with
            | mk s1 ms =>
                rw [hrun] at htail
                simp only [List.mem_cons, hmsg]
                rintro (hbad | hbad)
                · exact absurd hbad (by decide)
                · exact htail hbad
  · unfold repaintStep
    rw [if_neg (by omega)]

/-- Witness for C10: a repaint after one cancel request, a flagged state
processing one fast request, and a clean repaint. -/
theorem cancellation_promotes_fast_to_full_witness :
    ((repaintStep ⟨1, false⟩).needFullRerender = true ∧
      (repaintStep ⟨1, false⟩).stopFlag = 0) ∧
    (fastRequestMessage ⟨0, true⟩ = "reset_renderer_full" ∧
      (runEvents ⟨0, true⟩ [UiEvent.fastRequest]).1.needFullRerender = true ∧
      "reset_renderer_fast" ∉ (runEvents ⟨0, true⟩ [UiEvent.fastRequest]).2) ∧
    (repaintStep ⟨0, false⟩).needFullRerender = false :=
  cancellation_promotes_fast_to_full ⟨1, false⟩ ⟨0, true⟩ ⟨0, false⟩
    [UiEvent.fastRequest] (by norm_num) (by norm_num [usizeMod]) rfl rfl

end RustFractalGui
